import Mathlib

/-!
Shallow embedding of the Snake game core (src/c_src/snake_core.c, snake_core.h)
and verification of the specification's claims about it.

Modelling conventions:
* C `int` is modelled as `Int`; the C `%` operator (truncating remainder) is
  `Int.tmod`, and C `/` (truncating division) is `Int.tdiv`.
* The `snake` field models the full backing array `SnakeSegment snake[MAX_SNAKE_LENGTH]`
  as a `List Point`; slots at indices `≥ snake_length` hold stale values, exactly as
  the C array does.  `snake_length`, a C `int` that the code only ever sets to values
  in `[0, MAX_SNAKE_LENGTH]`, is modelled as `Nat`; C loops `for (i = a; i < n; i++)`
  become folds over `List.range`.
* The process-wide `rand()` stream is modelled as an explicit argument
  `rng : Nat → Nat` giving the successive values returned by `rand()`;
  each operation that draws randomness receives such a stream.  Since every
  theorem quantifies over all streams, threading one global stream through
  a call sequence is a special case of handing each call its own stream.
* The nullable `GameState*` parameter of every C function is modelled by
  `Option GameState` wrappers (suffix `Ptr`); the unsuffixed functions are the
  non-null paths.  Functions that mutate through the pointer return the new state.
-/

namespace SnakeCore

/-- C struct Point: a grid coordinate pair of C ints. -/
@[ext]
structure Point where
  x : Int
  y : Int
deriving DecidableEq

/-- C enum Direction. -/
inductive Direction where
  | UP
  | RIGHT
  | DOWN
  | LEFT
deriving DecidableEq

/-- C constant MAX_SNAKE_LENGTH. -/
def MAX_SNAKE_LENGTH : Nat := 100

/-- C constant INITIAL_SNAKE_LENGTH. -/
def INITIAL_SNAKE_LENGTH : Nat := 3

/-- C struct Food: a position plus the score value awarded on consumption. -/
structure Food where
  position : Point
  value : Int
deriving DecidableEq

/-- C struct GameState.  `snake` is the full backing array (all
`MAX_SNAKE_LENGTH` slots), of which only the first `snake_length` are live. -/
structure GameState where
  width : Int
  height : Int
  snake : List Point
  snake_length : Nat
  direction : Direction
  food : Food
  score : Int
  game_over : Bool
deriving DecidableEq

/-- Default point used to totalise list indexing (C array reads are total). -/
def d0 : Point := ⟨0, 0⟩

/-- Stream of successive values returned by `rand()`. -/
abbrev RandStream := Nat → Nat

/-- C helper get_random: `min + rand() % (max - min + 1)`, where `r` is the
value drawn from the stream. -/
def get_random (r : Nat) (mn mx : Int) : Int :=
  mn + Int.tmod (r : Int) (mx - mn + 1)

/-- C static get_new_position: move one cell in direction `dir`, coordinates
wrapping with the C `%` operator. -/
def get_new_position (current : Point) (dir : Direction) (width height : Int) : Point :=
  match dir with
  | .UP => { current with y := Int.tmod (current.y - 1 + height) height }
  | .RIGHT => { current with x := Int.tmod (current.x + 1) width }
  | .DOWN => { current with y := Int.tmod (current.y + 1) height }
  | .LEFT => { current with x := Int.tmod (current.x - 1 + width) width }

/-- C check_self_collision (non-null path): does `position` match any snake
segment at index 1 .. snake_length-1? -/
def check_self_collision (g : GameState) (position : Point) : Bool :=
  (List.range (g.snake_length - 1)).any fun j =>
    decide (g.snake.getD (j + 1) d0 = position)

/-- C is_food_position (non-null path). -/
def is_food_position (g : GameState) (position : Point) : Bool :=
  decide (g.food.position = position)

/-- The occupancy test inlined (twice) in C spawn_food: is cell `p` different
from every live snake segment? -/
def cellFreeOfSnake (g : GameState) (p : Point) : Bool :=
  (List.range g.snake_length).all fun i => decide (g.snake.getD i d0 ≠ p)

/-- The random candidate of attempt `k` in spawn_food: two successive `rand()`
draws give `get_random(0, width-1)` and `get_random(0, height-1)`. -/
def randPoint (g : GameState) (rng : RandStream) (k : Nat) : Point :=
  ⟨get_random (rng (2 * k)) 0 (g.width - 1),
   get_random (rng (2 * k + 1)) 0 (g.height - 1)⟩

/-- The candidate loop of C spawn_food: `while (!valid_position && attempts < MAX_ATTEMPTS)`.
`k` is the current attempt index, the fuel is the number of attempts left. -/
def spawnLoop (g : GameState) (rng : RandStream) : Nat → Nat → Option Point
  | _, 0 => none
  | k, fuel + 1 =>
    let p := randPoint g rng k
    if cellFreeOfSnake g p then some p else spawnLoop g rng (k + 1) fuel

/-- The grid cells in the order scanned by the fallback double loop of C
spawn_food: y outer from 0, x inner from 0. -/
def cells (g : GameState) : List Point :=
  (List.range g.height.toNat).flatMap fun (y : Nat) =>
    (List.range g.width.toNat).map fun (x : Nat) => (⟨x, y⟩ : Point)

/-- C spawn_food (non-null path): up to 100 random attempts accepting the first
free candidate; on exhaustion a row-major scan taking the first free cell; if
no cell is free, no write happens at all. -/
def spawn_food (g : GameState) (rng : RandStream) : GameState :=
  match spawnLoop g rng 0 100 with
  | some p => { g with food := ⟨p, 10⟩ }
  | none =>
    match (cells g).find? (cellFreeOfSnake g) with
    | some p => { g with food := ⟨p, 10⟩ }
    | none => g

/-- The body-move loop of C update_game (`for (i = snake_length-1; i > 0; i--)
snake[i] = snake[i-1]`) followed by the unconditional head write
`snake[0] = new_head`.  The loop runs downward, so slot `i` receives the OLD
value of slot `i-1`; slots at index ≥ `len` keep their stale values. -/
def moveSnake (arr : List Point) (len : Nat) (new_head : Point) : List Point :=
  ((List.range arr.length).map fun i =>
    if 1 ≤ i ∧ i < len then arr.getD (i - 1) d0 else arr.getD i d0).set 0 new_head

/-- C update_game (non-null path): returns the C boolean result paired with
the post-call state. -/
def update_game (g : GameState) (rng : RandStream) : Bool × GameState :=
  if g.game_over then (false, g)
  else
    let new_head := get_new_position (g.snake.getD 0 d0) g.direction g.width g.height
    if check_self_collision g new_head then (true, { g with game_over := true })
    else
      let g1 :=
        if is_food_position g new_head then
          let g2 := if g.snake_length < MAX_SNAKE_LENGTH then
              { g with snake_length := g.snake_length + 1 } else g
          spawn_food { g2 with score := g2.score + g2.food.value } rng
        else g
      (true, { g1 with snake := moveSnake g1.snake g1.snake_length new_head })

/-- C set_direction (non-null path): reject exact 180-degree reversals,
otherwise set the direction; no game-over guard. -/
def set_direction (g : GameState) (new_direction : Direction) : GameState :=
  if (g.direction = .UP ∧ new_direction = .DOWN) ∨
     (g.direction = .DOWN ∧ new_direction = .UP) ∨
     (g.direction = .LEFT ∧ new_direction = .RIGHT) ∨
     (g.direction = .RIGHT ∧ new_direction = .LEFT) then g
  else { g with direction := new_direction }

/-- C initialize_game (non-null path): sets the bounds, a fresh 3-segment snake
centred on the grid and heading RIGHT, zero score, game not over, then spawns
the initial food.  `g` supplies the pre-existing memory (in particular the
backing array slots that are not overwritten). -/
def initialize_game (g : GameState) (width height : Int) (rng : RandStream) : GameState :=
  let start_x := Int.tdiv width 2
  let start_y := Int.tdiv height 2
  let g1 : GameState :=
    { g with
      width := width, height := height,
      snake_length := INITIAL_SNAKE_LENGTH,
      direction := .RIGHT, score := 0, game_over := false,
      snake := (List.range g.snake.length).map fun i =>
        if i < INITIAL_SNAKE_LENGTH then ⟨start_x - (i : Int), start_y⟩
        else g.snake.getD i d0 }
  spawn_food g1 rng

/-- C get_snake_segment (non-null path): sentinel (-1,-1) when the index is
outside [0, snake_length). -/
def get_snake_segment (g : GameState) (index : Int) : Point :=
  if index < 0 ∨ (g.snake_length : Int) ≤ index then ⟨-1, -1⟩
  else g.snake.getD index.toNat d0

/-- C get_food_position (non-null path). -/
def get_food_position (g : GameState) : Point := g.food.position

/-- C get_score (non-null path). -/
def get_score (g : GameState) : Int := g.score

/-- C is_game_over (non-null path). -/
def is_game_over (g : GameState) : Bool := g.game_over

/-- C reset_game (non-null path): re-initialise with the current bounds. -/
def reset_game (g : GameState) (rng : RandStream) : GameState :=
  initialize_game g g.width g.height rng

/-- C update_game on a possibly-null pointer: `if (!game || ...) return false;`. -/
def update_gamePtr (g : Option GameState) (rng : RandStream) : Bool × Option GameState :=
  match g with
  | none => (false, none)
  | some s => ((update_game s rng).1, some (update_game s rng).2)

/-- C is_game_over on a possibly-null pointer: `if (!game) return true;`. -/
def is_game_overPtr (g : Option GameState) : Bool :=
  match g with
  | none => true
  | some s => is_game_over s

/-- C get_score on a possibly-null pointer: `if (!game) return 0;`. -/
def get_scorePtr (g : Option GameState) : Int :=
  match g with
  | none => 0
  | some s => get_score s

/-- C get_snake_segment on a possibly-null pointer: sentinel (-1,-1) for null. -/
def get_snake_segmentPtr (g : Option GameState) (index : Int) : Point :=
  match g with
  | none => ⟨-1, -1⟩
  | some s => get_snake_segment s index

/-- C get_food_position on a possibly-null pointer: sentinel (-1,-1) for null. -/
def get_food_positionPtr (g : Option GameState) : Point :=
  match g with
  | none => ⟨-1, -1⟩
  | some s => get_food_position s

/-- C set_direction on a possibly-null pointer: `if (!game) return;` (no-op). -/
def set_directionPtr (g : Option GameState) (new_direction : Direction) : Option GameState :=
  match g with
  | none => none
  | some s => some (set_direction s new_direction)

/-- C spawn_food on a possibly-null pointer: `if (!game) return;` (no-op). -/
def spawn_foodPtr (g : Option GameState) (rng : RandStream) : Option GameState :=
  match g with
  | none => none
  | some s => some (spawn_food s rng)

/-- C reset_game on a possibly-null pointer: `if (!game) return;` (no-op). -/
def reset_gamePtr (g : Option GameState) (rng : RandStream) : Option GameState :=
  match g with
  | none => none
  | some s => some (reset_game s rng)

/-- C check_self_collision on a possibly-null pointer: `if (!game) return false;`. -/
def check_self_collisionPtr (g : Option GameState) (position : Point) : Bool :=
  match g with
  | none => false
  | some s => check_self_collision s position

/-- The live snake segments: the first `snake_length` slots of the backing
array, index 0 the head. -/
def segsOf (g : GameState) : List Point := g.snake.take g.snake_length

/-- New head position of a tick, as computed at the top of C update_game. -/
def newHead (g : GameState) : Point :=
  get_new_position (g.snake.getD 0 d0) g.direction g.width g.height

/-- Iterating update_game over a list of per-call random streams. -/
def run_updates (g : GameState) : List RandStream → GameState
  | [] => g
  | r :: rs => run_updates (update_game g r).2 rs

/-- Game states reachable through the public lifecycle: an initialize call on
some pre-existing memory (whose backing array has the C size), followed by any
sequence of update, set_direction and reset calls. -/
inductive Reachable : GameState → Prop where
  | init : ∀ (g0 : GameState) (w h : Int) (rng : RandStream),
      g0.snake.length = MAX_SNAKE_LENGTH → Reachable (initialize_game g0 w h rng)
  | tick : ∀ (g : GameState) (rng : RandStream),
      Reachable g → Reachable (update_game g rng).2
  | turn : ∀ (g : GameState) (d : Direction),
      Reachable g → Reachable (set_direction g d)
  | again : ∀ (g : GameState) (rng : RandStream),
      Reachable g → Reachable (reset_game g rng)

/-- The intermediate state of the food-eaten branch of update_game: length
grown (capped) and score credited, before the new food spawn. -/
def grownState (g : GameState) : GameState :=
  let g2 := if g.snake_length < MAX_SNAKE_LENGTH then
      { g with snake_length := g.snake_length + 1 } else g
  { g2 with score := g2.score + g2.food.value }

/-- The post-tick snake length of a successful tick. -/
def tickLen (g : GameState) : Nat :=
  if is_food_position g (newHead g) = true ∧ g.snake_length < MAX_SNAKE_LENGTH
  then g.snake_length + 1 else g.snake_length

/-- Coordinates of `p` lie on the grid of `g`. -/
def InBounds (g : GameState) (p : Point) : Prop :=
  0 ≤ p.x ∧ p.x < g.width ∧ 0 ≤ p.y ∧ p.y < g.height

/-- Inductive invariant of reachable states: the backing array has the C size,
the length field is in range, and (on grids of width and height at least 2)
the head is on the grid and the live segments are pairwise distinct. -/
def Inv (g : GameState) : Prop :=
  g.snake.length = MAX_SNAKE_LENGTH ∧
  INITIAL_SNAKE_LENGTH ≤ g.snake_length ∧
  g.snake_length ≤ MAX_SNAKE_LENGTH ∧
  (2 ≤ g.width → 2 ≤ g.height → InBounds g (g.snake.getD 0 d0) ∧ (segsOf g).Nodup)

/-- The 180-degree opposite of a direction (the reversal set_direction rejects). -/
def opposite : Direction → Direction
  | .UP => .DOWN
  | .DOWN => .UP
  | .LEFT => .RIGHT
  | .RIGHT => .LEFT

/-! Concrete states and random streams used as witnesses and counterexamples. -/

/-- Pre-existing memory image handed to initialize_game in concrete runs:
a backing array of MAX_SNAKE_LENGTH slots all holding (0,0). -/
def blankMemC1 : GameState :=
  ⟨0, 0, List.replicate MAX_SNAKE_LENGTH d0, 0, .RIGHT, ⟨d0, 0⟩, 0, false⟩

/-- Stream whose first two rand() draws are 3 and 2, so the first food
candidate of each spawn is the cell (3, 2). -/
def rngC1 : RandStream := fun n => if n = 0 then 3 else 2

/-- A 5-by-5 game straight out of initialize_game, food at (3, 2), one step
right of the head (2, 2). -/
def gC1 : GameState := initialize_game blankMemC1 5 5 rngC1

def blankMemC3 : GameState :=
  ⟨0, 0, List.replicate MAX_SNAKE_LENGTH d0, 0, .RIGHT, ⟨d0, 0⟩, 0, false⟩

def rngC3 : RandStream := fun _ => 0

/-- A width-1 game straight out of initialize_game: head (0, 2), body at
negative x, food at (0, 0); moving RIGHT wraps the head onto itself. -/
def gC3 : GameState := initialize_game blankMemC3 1 5 rngC3

def gW2 : GameState :=
  ⟨5, 5, ⟨1, 0⟩ :: ⟨0, 0⟩ :: ⟨0, 1⟩ :: List.replicate 97 ⟨9, 9⟩, 3, .LEFT,
   ⟨⟨4, 4⟩, 10⟩, 0, false⟩

def rngW2 : RandStream := fun _ => 0

def blankMemW3 : GameState :=
  ⟨0, 0, List.replicate MAX_SNAKE_LENGTH d0, 0, .RIGHT, ⟨d0, 0⟩, 0, false⟩

def rngW3 : RandStream := fun _ => 0

def gW3 : GameState := initialize_game blankMemW3 10 10 rngW3

/-- A snake already at the 100-segment cap about to eat the food at (0, 5). -/
def gW5 : GameState :=
  ⟨2, 1, List.replicate 100 ⟨5, 5⟩, 100, .RIGHT, ⟨⟨0, 5⟩, 7⟩, 0, false⟩

def rngW5 : RandStream := fun _ => 0

def gW6 : GameState :=
  ⟨2, 2, List.replicate 100 ⟨0, 0⟩, 1, .RIGHT, ⟨⟨1, 1⟩, 10⟩, 0, false⟩

def rngW6 : RandStream := fun _ => 1

def gW8 : GameState :=
  ⟨4, 4, List.replicate 100 d0, 3, .RIGHT, ⟨⟨2, 2⟩, 10⟩, 0, false⟩

def gW9 : GameState :=
  ⟨4, 4, ⟨1, 1⟩ :: List.replicate 99 d0, 3, .RIGHT, ⟨⟨2, 2⟩, 10⟩, 5, true⟩

def rngW9 : RandStream := fun _ => 0

def gW10 : GameState :=
  ⟨6, 6, ⟨2, 2⟩ :: ⟨1, 2⟩ :: ⟨0, 2⟩ :: List.replicate 97 ⟨5, 5⟩, 3, .RIGHT,
   ⟨⟨3, 2⟩, 10⟩, 0, false⟩

def rngW10 : RandStream := fun _ => 0

/-! ### Basic lemmas about the embedded operations -/

theorem moveSnake_length (arr : List Point) (len : Nat) (nh : Point) :
    (moveSnake arr len nh).length = arr.length := by
  simp [moveSnake]

theorem moveSnake_take (arr : List Point) (len : Nat) (nh : Point)
    (h1 : 1 ≤ len) (h2 : len ≤ arr.length) :
    (moveSnake arr len nh).take len = nh :: arr.take (len - 1) := by
  apply List.ext_getElem
  · simp [moveSnake]
    omega
  · intro i hi1 hi2
    have hilen : i < len := by
      have := List.length_take_le len (moveSnake arr len nh)
      omega
    rw [List.getElem_take]
    rcases i with _ | j
    · rw [List.getElem_cons_zero]
      unfold moveSnake
      rw [List.getElem_set_self]
    · rw [List.getElem_cons_succ]
      unfold moveSnake
      rw [List.getElem_set_ne (by omega)]
      rw [List.getElem_map, List.getElem_range]
      have hcond : 1 ≤ j + 1 ∧ j + 1 < len := ⟨by omega, hilen⟩
      rw [if_pos hcond]
      have hj : j < arr.length := by omega
      simp only [Nat.add_sub_cancel]
      rw [List.getElem_take, List.getD_eq_getElem arr d0 hj]

theorem moveSnake_getD_zero (arr : List Point) (len : Nat) (nh : Point)
    (h : 0 < arr.length) :
    (moveSnake arr len nh).getD 0 d0 = nh := by
  have hl : 0 < (moveSnake arr len nh).length := by rw [moveSnake_length]; exact h
  rw [List.getD_eq_getElem _ d0 hl]
  unfold moveSnake
  rw [List.getElem_set_self]

theorem spawn_food_frame (g : GameState) (rng : RandStream) :
    ∃ f, spawn_food g rng = { g with food := f } := by
  unfold spawn_food
  cases h1 : spawnLoop g rng 0 100 with
  | some p => exact ⟨⟨p, 10⟩, rfl⟩
  | none =>
    cases h2 : (cells g).find? (cellFreeOfSnake g) with
    | some q => exact ⟨⟨q, 10⟩, rfl⟩
    | none => exact ⟨g.food, rfl⟩

theorem spawn_food_snake (g : GameState) (rng : RandStream) :
    (spawn_food g rng).snake = g.snake := by
  obtain ⟨f, hf⟩ := spawn_food_frame g rng
  rw [hf]

theorem spawn_food_snake_length (g : GameState) (rng : RandStream) :
    (spawn_food g rng).snake_length = g.snake_length := by
  obtain ⟨f, hf⟩ := spawn_food_frame g rng
  rw [hf]

theorem spawn_food_width (g : GameState) (rng : RandStream) :
    (spawn_food g rng).width = g.width := by
  obtain ⟨f, hf⟩ := spawn_food_frame g rng
  rw [hf]

theorem spawn_food_height (g : GameState) (rng : RandStream) :
    (spawn_food g rng).height = g.height := by
  obtain ⟨f, hf⟩ := spawn_food_frame g rng
  rw [hf]

theorem spawn_food_game_over (g : GameState) (rng : RandStream) :
    (spawn_food g rng).game_over = g.game_over := by
  obtain ⟨f, hf⟩ := spawn_food_frame g rng
  rw [hf]

theorem spawn_food_score (g : GameState) (rng : RandStream) :
    (spawn_food g rng).score = g.score := by
  obtain ⟨f, hf⟩ := spawn_food_frame g rng
  rw [hf]

theorem cellFreeOfSnake_iff (g : GameState) (p : Point) :
    cellFreeOfSnake g p = true ↔ ∀ i, i < g.snake_length → g.snake.getD i d0 ≠ p := by
  simp [cellFreeOfSnake]

theorem check_self_collision_iff (g : GameState) (p : Point) :
    check_self_collision g p = true ↔
      ∃ i, 1 ≤ i ∧ i < g.snake_length ∧ g.snake.getD i d0 = p := by
  simp only [check_self_collision, List.any_eq_true, List.mem_range,
    decide_eq_true_eq]
  constructor
  · rintro ⟨j, hj, hsome⟩
    exact ⟨j + 1, by omega, by omega, hsome⟩
  · rintro ⟨i, h1, h2, he⟩
    refine ⟨i - 1, by omega, ?_⟩
    have hrw : i - 1 + 1 = i := by omega
    rw [hrw]
    exact he

theorem check_self_collision_eq_false (g : GameState) (p : Point) :
    check_self_collision g p = false ↔
      ∀ i, 1 ≤ i → i < g.snake_length → g.snake.getD i d0 ≠ p := by
  rw [← Bool.not_eq_true, check_self_collision_iff]
  constructor
  · intro h i h1 h2 he
    exact h ⟨i, h1, h2, he⟩
  · rintro h ⟨i, h1, h2, he⟩
    exact h i h1 h2 he

theorem get_random_zero (r : Nat) (w : Int) :
    get_random r 0 (w - 1) = Int.tmod (r : Int) w := by
  unfold get_random
  norm_num

theorem tmod_bounds (r w : Int) (hr : 0 ≤ r) (hw : 1 ≤ w) :
    0 ≤ Int.tmod r w ∧ Int.tmod r w < w := by
  rw [Int.tmod_eq_emod hr (by omega)]
  exact ⟨Int.emod_nonneg r (by omega), Int.emod_lt_of_pos r (by omega)⟩

/-! ### The spawn_food candidate loop and fallback scan -/

theorem spawnLoop_some (g : GameState) (rng : RandStream) :
    ∀ fuel a p, spawnLoop g rng a fuel = some p →
      cellFreeOfSnake g p = true ∧ ∃ k, a ≤ k ∧ k < a + fuel ∧ p = randPoint g rng k := by
  intro fuel
  induction fuel with
  | zero => intro a p h; simp [spawnLoop] at h
  | succ n ih =>
    intro a p h
    rw [spawnLoop] at h
    by_cases hf : cellFreeOfSnake g (randPoint g rng a) = true
    · rw [if_pos hf] at h
      cases h
      exact ⟨hf, a, Nat.le_refl a, by omega, rfl⟩
    · rw [if_neg hf] at h
      obtain ⟨hfree, k, hk1, hk2, hk3⟩ := ih (a + 1) p h
      exact ⟨hfree, k, by omega, by omega, hk3⟩

theorem spawnLoop_none (g : GameState) (rng : RandStream) :
    ∀ fuel a, (∀ j, a ≤ j → j < a + fuel → cellFreeOfSnake g (randPoint g rng j) = false) →
      spawnLoop g rng a fuel = none := by
  intro fuel
  induction fuel with
  | zero => intro a _; rfl
  | succ n ih =>
    intro a hall
    rw [spawnLoop]
    have ha : cellFreeOfSnake g (randPoint g rng a) = false :=
      hall a (Nat.le_refl a) (by omega)
    rw [if_neg (by simp [ha])]
    exact ih (a + 1) fun j hj1 hj2 => hall j (by omega) (by omega)

theorem spawnLoop_first (g : GameState) (rng : RandStream) :
    ∀ fuel a k, a ≤ k → k < a + fuel →
      cellFreeOfSnake g (randPoint g rng k) = true →
      (∀ j, a ≤ j → j < k → cellFreeOfSnake g (randPoint g rng j) = false) →
      spawnLoop g rng a fuel = some (randPoint g rng k) := by
  intro fuel
  induction fuel with
  | zero => intro a k h1 h2; omega
  | succ n ih =>
    intro a k h1 h2 hfree hbefore
    rw [spawnLoop]
    by_cases hak : a = k
    · subst hak
      rw [if_pos hfree]
    · have ha : cellFreeOfSnake g (randPoint g rng a) = false :=
        hbefore a (Nat.le_refl a) (by omega)
      rw [if_neg (by simp [ha])]
      exact ih (a + 1) k (by omega) (by omega) hfree
        (fun j hj1 hj2 => hbefore j (by omega) hj2)

theorem find?_first (p : Point → Bool) :
    ∀ (l : List Point) (i : Nat), i < l.length →
      p (l.getD i d0) = true →
      (∀ j, j < i → p (l.getD j d0) = false) →
      l.find? p = some (l.getD i d0) := by
  intro l
  induction l with
  | nil => intro i hi; simp at hi
  | cons x t ih =>
    intro i hi hp hbefore
    cases i with
    | zero =>
      rw [List.getD_cons_zero] at hp ⊢
      exact List.find?_cons_of_pos t hp
    | succ k =>
      have hx : p x = false := by
        have := hbefore 0 (Nat.succ_pos k)
        rwa [List.getD_cons_zero] at this
      rw [List.getD_cons_succ]
      rw [List.find?_cons_of_neg t (by simp [hx])]
      apply ih k (by simpa using hi)
      · rwa [List.getD_cons_succ] at hp
      · intro j hj
        have := hbefore (j + 1) (by omega)
        rwa [List.getD_cons_succ] at this

theorem mem_cells_iff (g : GameState) (p : Point) :
    p ∈ cells g ↔ 0 ≤ p.x ∧ p.x < g.width ∧ 0 ≤ p.y ∧ p.y < g.height := by
  constructor
  · intro hp
    rw [cells, List.mem_flatMap] at hp
    obtain ⟨y, hy, hp⟩ := hp
    rw [List.mem_map] at hp
    obtain ⟨x, hx, rfl⟩ := hp
    rw [List.mem_range] at hy hx
    refine ⟨by simp, ?_, by simp, ?_⟩
    · show (x : Int) < g.width
      omega
    · show (y : Int) < g.height
      omega
  · rintro ⟨hx0, hxw, hy0, hyh⟩
    rw [cells, List.mem_flatMap]
    refine ⟨p.y.toNat, ?_, ?_⟩
    · rw [List.mem_range]
      omega
    · rw [List.mem_map]
      refine ⟨p.x.toNat, ?_, ?_⟩
      · rw [List.mem_range]
        omega
      · ext
        · show ((p.x.toNat : Nat) : Int) = p.x
          omega
        · show ((p.y.toNat : Nat) : Int) = p.y
          omega

theorem randPoint_x (g : GameState) (rng : RandStream) (k : Nat) (hw : 1 ≤ g.width) :
    0 ≤ (randPoint g rng k).x ∧ (randPoint g rng k).x < g.width := by
  have hx : (randPoint g rng k).x = Int.tmod ((rng (2 * k) : Nat) : Int) g.width := by
    show get_random (rng (2 * k)) 0 (g.width - 1) = _
    rw [get_random_zero]
  rw [hx]
  exact tmod_bounds _ _ (Int.natCast_nonneg _) hw

theorem randPoint_y (g : GameState) (rng : RandStream) (k : Nat) (hh : 1 ≤ g.height) :
    0 ≤ (randPoint g rng k).y ∧ (randPoint g rng k).y < g.height := by
  have hy : (randPoint g rng k).y = Int.tmod ((rng (2 * k + 1) : Nat) : Int) g.height := by
    show get_random (rng (2 * k + 1)) 0 (g.height - 1) = _
    rw [get_random_zero]
  rw [hy]
  exact tmod_bounds _ _ (Int.natCast_nonneg _) hh

theorem randPoint_mem_cells (g : GameState) (rng : RandStream) (k : Nat)
    (hw : 1 ≤ g.width) (hh : 1 ≤ g.height) :
    randPoint g rng k ∈ cells g := by
  rw [mem_cells_iff]
  obtain ⟨h1, h2⟩ := randPoint_x g rng k hw
  obtain ⟨h3, h4⟩ := randPoint_y g rng k hh
  exact ⟨h1, h2, h3, h4⟩

theorem mem_take_getD (arr : List Point) (n : Nat) (hn : n ≤ arr.length) (a : Point) :
    a ∈ arr.take n ↔ ∃ i, i < n ∧ arr.getD i d0 = a := by
  rw [List.mem_iff_getElem]
  constructor
  · rintro ⟨i, hi, he⟩
    have hi2 : i < n := by
      have := List.length_take_le n arr
      omega
    have hi3 : i < arr.length := by omega
    refine ⟨i, hi2, ?_⟩
    rw [List.getD_eq_getElem arr d0 hi3, ← he, List.getElem_take]
  · rintro ⟨i, hi, he⟩
    have hi3 : i < arr.length := by omega
    have hl : i < (arr.take n).length := by
      rw [List.length_take]
      omega
    refine ⟨i, hl, ?_⟩
    rw [List.getElem_take, ← List.getD_eq_getElem arr d0 hi3]
    exact he

/-! ### Wrapping arithmetic -/

theorem wrap_inc (a m : Int) (hm : 1 ≤ m) (h1 : 0 ≤ a) (h2 : a < m) :
    Int.tmod (a + 1) m = if a = m - 1 then 0 else a + 1 := by
  rw [Int.tmod_eq_emod (by omega) (by omega)]
  by_cases h0 : a = m - 1
  · rw [if_pos h0, h0]
    have he : m - 1 + 1 = m := by ring
    rw [he, Int.emod_self]
  · rw [if_neg h0]
    exact Int.emod_eq_of_lt (by omega) (by omega)

theorem wrap_dec (a m : Int) (hm : 1 ≤ m) (h1 : 0 ≤ a) (h2 : a < m) :
    Int.tmod (a - 1 + m) m = if a = 0 then m - 1 else a - 1 := by
  rw [Int.tmod_eq_emod (by omega) (by omega)]
  by_cases h0 : a = 0
  · rw [if_pos h0, h0]
    have he : (0 : Int) - 1 + m = m - 1 := by ring
    rw [he]
    exact Int.emod_eq_of_lt (by omega) (by omega)
  · rw [if_neg h0]
    have he : a - 1 + m = a - 1 + m * 1 := by ring
    rw [he, Int.add_mul_emod_self_left]
    exact Int.emod_eq_of_lt (by omega) (by omega)

theorem get_new_position_bounds (c : Point) (dir : Direction) (w h : Int)
    (hw : 1 ≤ w) (hh : 1 ≤ h)
    (hx : 0 ≤ c.x) (hx2 : c.x < w) (hy : 0 ≤ c.y) (hy2 : c.y < h) :
    0 ≤ (get_new_position c dir w h).x ∧ (get_new_position c dir w h).x < w ∧
    0 ≤ (get_new_position c dir w h).y ∧ (get_new_position c dir w h).y < h := by
  cases dir with
  | UP =>
    have hb := tmod_bounds (c.y - 1 + h) h (by omega) hh
    exact ⟨hx, hx2, hb.1, hb.2⟩
  | RIGHT =>
    have hb := tmod_bounds (c.x + 1) w (by omega) hw
    exact ⟨hb.1, hb.2, hy, hy2⟩
  | DOWN =>
    have hb := tmod_bounds (c.y + 1) h (by omega) hh
    exact ⟨hx, hx2, hb.1, hb.2⟩
  | LEFT =>
    have hb := tmod_bounds (c.x - 1 + w) w (by omega) hw
    exact ⟨hb.1, hb.2, hy, hy2⟩

theorem get_new_position_ne (c : Point) (dir : Direction) (w h : Int)
    (hw : 2 ≤ w) (hh : 2 ≤ h)
    (hx : 0 ≤ c.x) (hx2 : c.x < w) (hy : 0 ≤ c.y) (hy2 : c.y < h) :
    get_new_position c dir w h ≠ c := by
  cases dir with
  | UP =>
    intro he
    have hy' : Int.tmod (c.y - 1 + h) h = c.y := congrArg Point.y he
    rw [wrap_dec c.y h (by omega) hy hy2] at hy'
    by_cases h0 : c.y = 0
    · rw [if_pos h0] at hy'
      omega
    · rw [if_neg h0] at hy'
      omega
  | DOWN =>
    intro he
    have hy' : Int.tmod (c.y + 1) h = c.y := congrArg Point.y he
    rw [wrap_inc c.y h (by omega) hy hy2] at hy'
    by_cases h0 : c.y = h - 1
    · rw [if_pos h0] at hy'
      omega
    · rw [if_neg h0] at hy'
      omega
  | RIGHT =>
    intro he
    have hx' : Int.tmod (c.x + 1) w = c.x := congrArg Point.x he
    rw [wrap_inc c.x w (by omega) hx hx2] at hx'
    by_cases h0 : c.x = w - 1
    · rw [if_pos h0] at hx'
      omega
    · rw [if_neg h0] at hx'
      omega
  | LEFT =>
    intro he
    have hx' : Int.tmod (c.x - 1 + w) w = c.x := congrArg Point.x he
    rw [wrap_dec c.x w (by omega) hx hx2] at hx'
    by_cases h0 : c.x = 0
    · rw [if_pos h0] at hx'
      omega
    · rw [if_neg h0] at hx'
      omega

/-! ### Structure of an update_game tick -/

theorem grownState_snake (g : GameState) : (grownState g).snake = g.snake := by
  unfold grownState
  by_cases hl : g.snake_length < MAX_SNAKE_LENGTH <;> simp [hl]

theorem grownState_width (g : GameState) : (grownState g).width = g.width := by
  unfold grownState
  by_cases hl : g.snake_length < MAX_SNAKE_LENGTH <;> simp [hl]

theorem grownState_height (g : GameState) : (grownState g).height = g.height := by
  unfold grownState
  by_cases hl : g.snake_length < MAX_SNAKE_LENGTH <;> simp [hl]

theorem grownState_game_over (g : GameState) : (grownState g).game_over = g.game_over := by
  unfold grownState
  by_cases hl : g.snake_length < MAX_SNAKE_LENGTH <;> simp [hl]

theorem grownState_score (g : GameState) :
    (grownState g).score = g.score + g.food.value := by
  unfold grownState
  by_cases hl : g.snake_length < MAX_SNAKE_LENGTH <;> simp [hl]

theorem grownState_snake_length (g : GameState) :
    (grownState g).snake_length =
      if g.snake_length < MAX_SNAKE_LENGTH then g.snake_length + 1 else g.snake_length := by
  unfold grownState
  by_cases hl : g.snake_length < MAX_SNAKE_LENGTH <;> simp [hl]

theorem update_game_not_over (g : GameState) (rng : RandStream)
    (hgo : g.game_over = true) :
    update_game g rng = (false, g) := by
  simp only [update_game, hgo]
  rfl

theorem update_game_collision (g : GameState) (rng : RandStream)
    (hgo : g.game_over = false)
    (hcol : check_self_collision g (newHead g) = true) :
    update_game g rng = (true, { g with game_over := true }) := by
  simp only [newHead] at hcol
  simp only [update_game, hgo]
  rw [if_neg (by simp), if_pos hcol]

theorem update_game_success (g : GameState) (rng : RandStream)
    (hgo : g.game_over = false)
    (hcol : check_self_collision g (newHead g) = false) :
    update_game g rng =
      (true,
        let g1 := if is_food_position g (newHead g) then spawn_food (grownState g) rng else g
        { g1 with snake := moveSnake g1.snake g1.snake_length (newHead g) }) := by
  simp only [newHead] at hcol ⊢
  simp only [update_game]
  rw [if_neg (show ¬(g.game_over = true) by simp [hgo]),
    if_neg (show ¬(check_self_collision g
      (get_new_position (g.snake.getD 0 d0) g.direction g.width g.height) = true) by
        rw [hcol]; simp)]
  rfl

theorem update_game_fst (g : GameState) (rng : RandStream)
    (hgo : g.game_over = false)
    (hcol : check_self_collision g (newHead g) = false) :
    (update_game g rng).1 = true := by
  rw [update_game_success g rng hgo hcol]

theorem update_game_snake_length (g : GameState) (rng : RandStream)
    (hgo : g.game_over = false)
    (hcol : check_self_collision g (newHead g) = false) :
    (update_game g rng).2.snake_length = tickLen g := by
  rw [update_game_success g rng hgo hcol]
  unfold tickLen
  by_cases hf : is_food_position g (newHead g) = true
  · by_cases hl : g.snake_length < MAX_SNAKE_LENGTH <;>
      simp [hf, hl, spawn_food_snake_length, grownState_snake_length]
  · have hf2 : is_food_position g (newHead g) = false := by
      rwa [Bool.not_eq_true] at hf
    simp [hf2]

theorem update_game_snake (g : GameState) (rng : RandStream)
    (hgo : g.game_over = false)
    (hcol : check_self_collision g (newHead g) = false) :
    (update_game g rng).2.snake = moveSnake g.snake (tickLen g) (newHead g) := by
  rw [update_game_success g rng hgo hcol]
  unfold tickLen
  by_cases hf : is_food_position g (newHead g) = true
  · by_cases hl : g.snake_length < MAX_SNAKE_LENGTH <;>
      simp [hf, hl, spawn_food_snake, spawn_food_snake_length,
        grownState_snake, grownState_snake_length]
  · have hf2 : is_food_position g (newHead g) = false := by
      rwa [Bool.not_eq_true] at hf
    simp [hf2]

theorem update_game_game_over (g : GameState) (rng : RandStream)
    (hgo : g.game_over = false)
    (hcol : check_self_collision g (newHead g) = false) :
    (update_game g rng).2.game_over = false := by
  rw [update_game_success g rng hgo hcol]
  by_cases hf : is_food_position g (newHead g) = true
  · simp [hf, spawn_food_game_over, grownState_game_over, hgo]
  · have hf2 : is_food_position g (newHead g) = false := by
      rwa [Bool.not_eq_true] at hf
    simp [hf2, hgo]

theorem update_game_score (g : GameState) (rng : RandStream)
    (hgo : g.game_over = false)
    (hcol : check_self_collision g (newHead g) = false) :
    (update_game g rng).2.score =
      if is_food_position g (newHead g) = true then g.score + g.food.value else g.score := by
  rw [update_game_success g rng hgo hcol]
  by_cases hf : is_food_position g (newHead g) = true
  · simp [hf, spawn_food_score, grownState_score]
  · have hf2 : is_food_position g (newHead g) = false := by
      rwa [Bool.not_eq_true] at hf
    simp [hf2]

theorem update_game_food_eaten (g : GameState) (rng : RandStream)
    (hgo : g.game_over = false)
    (hcol : check_self_collision g (newHead g) = false)
    (hf : is_food_position g (newHead g) = true) :
    (update_game g rng).2.food = (spawn_food (grownState g) rng).food := by
  rw [update_game_success g rng hgo hcol]
  simp [hf]

theorem update_game_food_not_eaten (g : GameState) (rng : RandStream)
    (hgo : g.game_over = false)
    (hcol : check_self_collision g (newHead g) = false)
    (hf : is_food_position g (newHead g) = false) :
    (update_game g rng).2.food = g.food := by
  rw [update_game_success g rng hgo hcol]
  simp [hf]

theorem update_game_width (g : GameState) (rng : RandStream) :
    (update_game g rng).2.width = g.width := by
  by_cases hgo : g.game_over = true
  · rw [update_game_not_over g rng hgo]
  · have hgo2 : g.game_over = false := by simp [Bool.not_eq_true] at hgo; exact hgo
    by_cases hcol : check_self_collision g (newHead g) = true
    · rw [update_game_collision g rng hgo2 hcol]
    · have hcol2 : check_self_collision g (newHead g) = false := by
        simp [Bool.not_eq_true] at hcol; exact hcol
      rw [update_game_success g rng hgo2 hcol2]
      by_cases hf : is_food_position g (newHead g) = true
      · simp [hf, spawn_food_width, grownState_width]
      · have hf2 : is_food_position g (newHead g) = false := by
          rwa [Bool.not_eq_true] at hf
        simp [hf2]

theorem update_game_height (g : GameState) (rng : RandStream) :
    (update_game g rng).2.height = g.height := by
  by_cases hgo : g.game_over = true
  · rw [update_game_not_over g rng hgo]
  · have hgo2 : g.game_over = false := by simp [Bool.not_eq_true] at hgo; exact hgo
    by_cases hcol : check_self_collision g (newHead g) = true
    · rw [update_game_collision g rng hgo2 hcol]
    · have hcol2 : check_self_collision g (newHead g) = false := by
        simp [Bool.not_eq_true] at hcol; exact hcol
      rw [update_game_success g rng hgo2 hcol2]
      by_cases hf : is_food_position g (newHead g) = true
      · simp [hf, spawn_food_height, grownState_height]
      · have hf2 : is_food_position g (newHead g) = false := by
          rwa [Bool.not_eq_true] at hf
        simp [hf2]

/-! ### The reachable-state invariant -/

theorem tickLen_ge (g : GameState) : g.snake_length ≤ tickLen g := by
  unfold tickLen
  split <;> omega

theorem tickLen_le (g : GameState) (h100 : g.snake_length ≤ MAX_SNAKE_LENGTH) :
    tickLen g ≤ MAX_SNAKE_LENGTH := by
  unfold tickLen
  split
  · rename_i hc
    omega
  · omega

theorem tickLen_le_succ (g : GameState) : tickLen g ≤ g.snake_length + 1 := by
  unfold tickLen
  split <;> omega

/-- The new snake body of a successful tick: the new head followed by all old
segments except (in the non-growing case) the vacated tail cell. -/
theorem update_game_segs (g : GameState) (rng : RandStream)
    (hgo : g.game_over = false)
    (hcol : check_self_collision g (newHead g) = false)
    (hL : g.snake.length = MAX_SNAKE_LENGTH)
    (h1 : 1 ≤ g.snake_length) (h100 : g.snake_length ≤ MAX_SNAKE_LENGTH) :
    segsOf (update_game g rng).2 = newHead g :: g.snake.take (tickLen g - 1) := by
  unfold segsOf
  rw [update_game_snake g rng hgo hcol, update_game_snake_length g rng hgo hcol]
  apply moveSnake_take
  · have := tickLen_ge g
    omega
  · rw [hL]
    exact tickLen_le g h100

/-- The new head of a successful tick cannot revisit any old live segment. -/
theorem newHead_not_mem (g : GameState)
    (hcol : check_self_collision g (newHead g) = false)
    (hL : g.snake.length = MAX_SNAKE_LENGTH)
    (h100 : g.snake_length ≤ MAX_SNAKE_LENGTH)
    (hhead : InBounds g (g.snake.getD 0 d0))
    (h2w : 2 ≤ g.width) (h2h : 2 ≤ g.height) :
    ∀ i, i < g.snake_length → g.snake.getD i d0 ≠ newHead g := by
  intro i hi he
  rcases i with _ | j
  · have hne := get_new_position_ne (g.snake.getD 0 d0) g.direction g.width g.height
      h2w h2h hhead.1 hhead.2.1 hhead.2.2.1 hhead.2.2.2
    exact hne (he.symm)
  · exact (check_self_collision_eq_false g (newHead g)).mp hcol (j + 1)
      (by omega) hi he

theorem nodup_after_tick (g : GameState) (rng : RandStream)
    (hgo : g.game_over = false)
    (hcol : check_self_collision g (newHead g) = false)
    (hL : g.snake.length = MAX_SNAKE_LENGTH)
    (h1 : 1 ≤ g.snake_length) (h100 : g.snake_length ≤ MAX_SNAKE_LENGTH)
    (hhead : InBounds g (g.snake.getD 0 d0))
    (h2w : 2 ≤ g.width) (h2h : 2 ≤ g.height)
    (hnodup : (segsOf g).Nodup) :
    (segsOf (update_game g rng).2).Nodup := by
  rw [update_game_segs g rng hgo hcol hL h1 h100]
  rw [List.nodup_cons]
  have htake : g.snake.take (tickLen g - 1) = (segsOf g).take (tickLen g - 1) := by
    unfold segsOf
    rw [List.take_take, min_eq_left (by have := tickLen_le_succ g; omega)]
  constructor
  · intro hmem
    have hsub : tickLen g - 1 ≤ g.snake.length := by
      rw [hL]
      have := tickLen_le g h100
      omega
    obtain ⟨i, hi, he⟩ := (mem_take_getD g.snake (tickLen g - 1) hsub (newHead g)).mp hmem
    have hile : i < g.snake_length := by
      have hle := tickLen_le_succ g
      omega
    exact newHead_not_mem g hcol hL h100 hhead h2w h2h i hile he
  · rw [htake]
    exact hnodup.sublist (List.take_sublist _ _)

/-! ### Facts about initialize_game -/

theorem initialize_game_width (g : GameState) (w h : Int) (rng : RandStream) :
    (initialize_game g w h rng).width = w := by
  unfold initialize_game
  rw [spawn_food_width]

theorem initialize_game_height (g : GameState) (w h : Int) (rng : RandStream) :
    (initialize_game g w h rng).height = h := by
  unfold initialize_game
  rw [spawn_food_height]

theorem initialize_game_game_over (g : GameState) (w h : Int) (rng : RandStream) :
    (initialize_game g w h rng).game_over = false := by
  unfold initialize_game
  rw [spawn_food_game_over]

theorem initialize_game_score (g : GameState) (w h : Int) (rng : RandStream) :
    (initialize_game g w h rng).score = 0 := by
  unfold initialize_game
  rw [spawn_food_score]

theorem initialize_game_snake_length (g : GameState) (w h : Int) (rng : RandStream) :
    (initialize_game g w h rng).snake_length = INITIAL_SNAKE_LENGTH := by
  unfold initialize_game
  rw [spawn_food_snake_length]

theorem initialize_game_snake (g : GameState) (w h : Int) (rng : RandStream) :
    (initialize_game g w h rng).snake =
      (List.range g.snake.length).map fun i =>
        if i < INITIAL_SNAKE_LENGTH then ⟨Int.tdiv w 2 - (i : Int), Int.tdiv h 2⟩
        else g.snake.getD i d0 := by
  unfold initialize_game
  rw [spawn_food_snake]

theorem initialize_game_snake_len (g : GameState) (w h : Int) (rng : RandStream) :
    (initialize_game g w h rng).snake.length = g.snake.length := by
  rw [initialize_game_snake]
  simp

theorem initialize_game_head (g : GameState) (w h : Int) (rng : RandStream)
    (hpos : 0 < g.snake.length) :
    (initialize_game g w h rng).snake.getD 0 d0 = ⟨Int.tdiv w 2, Int.tdiv h 2⟩ := by
  rw [initialize_game_snake]
  have hlt : 0 < ((List.range g.snake.length).map fun i =>
      if i < INITIAL_SNAKE_LENGTH then (⟨Int.tdiv w 2 - (i : Int), Int.tdiv h 2⟩ : Point)
      else g.snake.getD i d0).length := by
    simpa using hpos
  rw [List.getD_eq_getElem _ d0 hlt, List.getElem_map, List.getElem_range]
  norm_num [INITIAL_SNAKE_LENGTH]

theorem initialize_game_segs (g : GameState) (w h : Int) (rng : RandStream)
    (hlen : INITIAL_SNAKE_LENGTH ≤ g.snake.length) :
    segsOf (initialize_game g w h rng) =
      [⟨Int.tdiv w 2, Int.tdiv h 2⟩, ⟨Int.tdiv w 2 - 1, Int.tdiv h 2⟩,
       ⟨Int.tdiv w 2 - 2, Int.tdiv h 2⟩] := by
  unfold segsOf
  rw [initialize_game_snake, initialize_game_snake_length]
  rw [← List.map_take, List.take_range, min_eq_left (by omega)]
  show List.map _ (List.range 3) = _
  rw [show List.range 3 = [0, 1, 2] from rfl]
  simp [INITIAL_SNAKE_LENGTH]

theorem Inv_initialize (g : GameState) (w h : Int) (rng : RandStream)
    (hlen : g.snake.length = MAX_SNAKE_LENGTH) :
    Inv (initialize_game g w h rng) := by
  refine ⟨?_, ?_, ?_, ?_⟩
  · rw [initialize_game_snake_len]
    exact hlen
  · rw [initialize_game_snake_length]
  · rw [initialize_game_snake_length]
    norm_num [INITIAL_SNAKE_LENGTH, MAX_SNAKE_LENGTH]
  · intro h2w h2h
    rw [initialize_game_width] at h2w
    rw [initialize_game_height] at h2h
    have hw2 : Int.tdiv w 2 = w / 2 := Int.tdiv_eq_ediv (by omega) (by norm_num)
    have hh2 : Int.tdiv h 2 = h / 2 := Int.tdiv_eq_ediv (by omega) (by norm_num)
    have hwx : 0 ≤ w / 2 := Int.ediv_nonneg (by omega) (by norm_num)
    have hwx2 : w / 2 < w := by
      rw [Int.ediv_lt_iff_lt_mul (by norm_num : (0 : Int) < 2)]
      omega
    have hhy : 0 ≤ h / 2 := Int.ediv_nonneg (by omega) (by norm_num)
    have hhy2 : h / 2 < h := by
      rw [Int.ediv_lt_iff_lt_mul (by norm_num : (0 : Int) < 2)]
      omega
    constructor
    · rw [initialize_game_head g w h rng (by rw [hlen]; norm_num [MAX_SNAKE_LENGTH])]
      unfold InBounds
      rw [initialize_game_width, initialize_game_height]
      refine ⟨?_, ?_, ?_, ?_⟩
      · show 0 ≤ Int.tdiv w 2
        rw [hw2]
        exact hwx
      · show Int.tdiv w 2 < w
        rw [hw2]
        exact hwx2
      · show 0 ≤ Int.tdiv h 2
        rw [hh2]
        exact hhy
      · show Int.tdiv h 2 < h
        rw [hh2]
        exact hhy2
    · rw [initialize_game_segs g w h rng
        (by rw [hlen]; norm_num [INITIAL_SNAKE_LENGTH, MAX_SNAKE_LENGTH])]
      simp [List.nodup_cons, Point.ext_iff]
      omega

theorem Inv_update (g : GameState) (rng : RandStream) (hInv : Inv g) :
    Inv (update_game g rng).2 := by
  obtain ⟨hL, h3, h100, hdim⟩ := hInv
  have h3n : 3 ≤ g.snake_length := h3
  by_cases hgo : g.game_over = true
  · rw [update_game_not_over g rng hgo]
    exact ⟨hL, h3, h100, hdim⟩
  · have hgo2 : g.game_over = false := by rwa [Bool.not_eq_true] at hgo
    by_cases hcol : check_self_collision g (newHead g) = true
    · rw [update_game_collision g rng hgo2 hcol]
      exact ⟨hL, h3, h100, hdim⟩
    · have hcol2 : check_self_collision g (newHead g) = false := by
        rwa [Bool.not_eq_true] at hcol
      have hsl := update_game_snake_length g rng hgo2 hcol2
      have hsn := update_game_snake g rng hgo2 hcol2
      have hwd := update_game_width g rng
      have hht := update_game_height g rng
      refine ⟨?_, ?_, ?_, ?_⟩
      · rw [hsn, moveSnake_length]
        exact hL
      · rw [hsl]
        have := tickLen_ge g
        omega
      · rw [hsl]
        exact tickLen_le g h100
      · intro h2w h2h
        rw [hwd] at h2w
        rw [hht] at h2h
        obtain ⟨hhead, hnodup⟩ := hdim h2w h2h
        constructor
        · have hh0 : (update_game g rng).2.snake.getD 0 d0 = newHead g := by
            rw [hsn]
            apply moveSnake_getD_zero
            rw [hL]
            norm_num [MAX_SNAKE_LENGTH]
          rw [hh0]
          unfold InBounds
          rw [hwd, hht]
          exact get_new_position_bounds (g.snake.getD 0 d0) g.direction g.width g.height
            (by omega) (by omega) hhead.1 hhead.2.1 hhead.2.2.1 hhead.2.2.2
        · exact nodup_after_tick g rng hgo2 hcol2 hL (by omega) h100 hhead h2w h2h hnodup

theorem Inv_set_direction (g : GameState) (d : Direction) (hInv : Inv g) :
    Inv (set_direction g d) := by
  unfold set_direction
  split
  · exact hInv
  · obtain ⟨hL, h3, h100, hdim⟩ := hInv
    exact ⟨hL, h3, h100, hdim⟩

theorem Inv_reset (g : GameState) (rng : RandStream) (hInv : Inv g) :
    Inv (reset_game g rng) := by
  unfold reset_game
  exact Inv_initialize g g.width g.height rng hInv.1

theorem reachable_inv (g : GameState) (hr : Reachable g) : Inv g := by
  induction hr with
  | init g0 w h rng hlen => exact Inv_initialize g0 w h rng hlen
  | tick g rng _ ih => exact Inv_update g rng ih
  | turn g d _ ih => exact Inv_set_direction g d ih
  | again g rng _ ih => exact Inv_reset g rng ih

/-! ### Behaviour of spawn_food -/

theorem spawn_food_places (g : GameState) (rng : RandStream)
    (hfree : ∃ p ∈ cells g, cellFreeOfSnake g p = true) :
    cellFreeOfSnake g (spawn_food g rng).food.position = true ∧
    (spawn_food g rng).food.value = 10 := by
  unfold spawn_food
  cases h1 : spawnLoop g rng 0 100 with
  | some p =>
    obtain ⟨hp, _⟩ := spawnLoop_some g rng 100 0 p h1
    exact ⟨hp, rfl⟩
  | none =>
    cases h2 : (cells g).find? (cellFreeOfSnake g) with
    | some q =>
      exact ⟨List.find?_some h2, rfl⟩
    | none =>
      exfalso
      obtain ⟨p, hpmem, hpfree⟩ := hfree
      exact (List.find?_eq_none.mp h2 p hpmem) hpfree

theorem spawn_food_mem_cells (g : GameState) (rng : RandStream)
    (hw : 1 ≤ g.width) (hh : 1 ≤ g.height)
    (hfree : ∃ p ∈ cells g, cellFreeOfSnake g p = true) :
    (spawn_food g rng).food.position ∈ cells g := by
  unfold spawn_food
  cases h1 : spawnLoop g rng 0 100 with
  | some p =>
    obtain ⟨_, k, _, _, hpk⟩ := spawnLoop_some g rng 100 0 p h1
    show p ∈ cells g
    rw [hpk]
    exact randPoint_mem_cells g rng k hw hh
  | none =>
    cases h2 : (cells g).find? (cellFreeOfSnake g) with
    | some q =>
      exact List.mem_of_find?_eq_some h2
    | none =>
      exfalso
      obtain ⟨p, hpmem, hpfree⟩ := hfree
      exact (List.find?_eq_none.mp h2 p hpmem) hpfree

theorem spawn_food_unchanged (g : GameState) (rng : RandStream)
    (hw : 1 ≤ g.width) (hh : 1 ≤ g.height)
    (hocc : ∀ p ∈ cells g, cellFreeOfSnake g p = false) :
    spawn_food g rng = g := by
  have hloop : spawnLoop g rng 0 100 = none := by
    apply spawnLoop_none
    intro j _ _
    exact hocc _ (randPoint_mem_cells g rng j hw hh)
  have hfind : (cells g).find? (cellFreeOfSnake g) = none := by
    apply List.find?_eq_none.mpr
    intro p hp
    simp [hocc p hp]
  unfold spawn_food
  rw [hloop, hfind]

theorem spawn_food_first_random (g : GameState) (rng : RandStream) (k : Nat)
    (hk : k < 100)
    (hfree : cellFreeOfSnake g (randPoint g rng k) = true)
    (hbefore : ∀ j, j < k → cellFreeOfSnake g (randPoint g rng j) = false) :
    (spawn_food g rng).food.position = randPoint g rng k ∧
    (spawn_food g rng).food.value = 10 := by
  have hloop := spawnLoop_first g rng 100 0 k (Nat.zero_le k) (by omega) hfree
    (fun j _ hj => hbefore j hj)
  unfold spawn_food
  rw [hloop]
  exact ⟨rfl, rfl⟩

theorem spawn_food_fallback (g : GameState) (rng : RandStream)
    (hnone : ∀ k, k < 100 → cellFreeOfSnake g (randPoint g rng k) = false)
    (i : Nat) (hi : i < (cells g).length)
    (hfree : cellFreeOfSnake g ((cells g).getD i d0) = true)
    (hbefore : ∀ j, j < i → cellFreeOfSnake g ((cells g).getD j d0) = false) :
    (spawn_food g rng).food.position = (cells g).getD i d0 ∧
    (spawn_food g rng).food.value = 10 := by
  have hloop : spawnLoop g rng 0 100 = none :=
    spawnLoop_none g rng 100 0 (fun j _ hj => hnone j (by omega))
  have hfind := find?_first (cellFreeOfSnake g) (cells g) i hi hfree hbefore
  unfold spawn_food
  rw [hloop, hfind]
  exact ⟨rfl, rfl⟩

/-! ### The claims -/

/-- C1: the claim says that after every successful (non-game-over) update the
food position differs from every snake segment errs: spawn_food runs before
the body shift and validates candidates against the PRE-move segments, so a
food respawn may land on the just-eaten cell, which the head occupies once the
shift completes.  This theorem exhibits the failure on a reachable state: a
freshly initialised 5-by-5 game whose head eats the food at (3, 2) while the
random stream re-draws (3, 2); the tick succeeds without game over, yet
afterwards the food coincides with the head segment (index 0 < snake_length). -/
theorem c1_food_on_snake_after_tick :
    Reachable gC1 ∧
    (update_game gC1 rngC1).1 = true ∧
    (update_game gC1 rngC1).2.game_over = false ∧
    (update_game gC1 rngC1).2.snake.getD 0 d0 = (update_game gC1 rngC1).2.food.position ∧
    0 < (update_game gC1 rngC1).2.snake_length :=
  ⟨Reachable.init blankMemC1 5 5 rngC1 rfl, by decide, by decide, by decide, by decide⟩

/-- C2: on a non-game-over state whose new head position equals a pre-move
segment at some index in 1 .. snake_length-1, update_game sets game_over,
returns true, and changes nothing else. -/
theorem c2_body_collision_ends_game (g : GameState) (rng : RandStream)
    (hgo : g.game_over = false)
    (hcol : ∃ i, 1 ≤ i ∧ i < g.snake_length ∧ g.snake.getD i d0 = newHead g) :
    update_game g rng = (true, { g with game_over := true }) :=
  update_game_collision g rng hgo ((check_self_collision_iff g (newHead g)).mpr hcol)

/-- C2 witness: a 3-segment snake at (1,0),(0,0),(0,1) heading LEFT; the new
head (0,0) hits body index 1, and the tick freezes the state with game_over. -/
theorem c2_witness :
    gW2.game_over = false ∧
    (1 ≤ 1 ∧ 1 < gW2.snake_length ∧ gW2.snake.getD 1 d0 = newHead gW2) ∧
    update_game gW2 rngW2 = (true, { gW2 with game_over := true }) :=
  ⟨rfl, ⟨by decide, by decide, by decide⟩,
   c2_body_collision_ends_game gW2 rngW2 rfl ⟨1, by decide, by decide, by decide⟩⟩

/-- C3 counterexample: the claim admits grids with width or height 1, but on a
reachable width-1 game (initialize on a 1-by-5 grid) a RIGHT move wraps the
head onto its own cell: the update returns true, game_over stays false, and
two post-update segments coincide. -/
theorem c3_counterexample :
    Reachable gC3 ∧ 1 ≤ gC3.width ∧ 1 ≤ gC3.height ∧
    (update_game gC3 rngC3).1 = true ∧
    (update_game gC3 rngC3).2.game_over = false ∧
    ¬ (segsOf (update_game gC3 rngC3).2).Nodup :=
  ⟨Reachable.init blankMemC3 1 5 rngC3 rfl, by decide, by decide, by decide,
   by decide, by decide⟩

/-- C3 (amended: width and height at least 2): after any update on a reachable
state that returns true without setting game_over, no two live snake segments
occupy the same cell. -/
theorem c3_segments_distinct (g : GameState) (rng : RandStream)
    (hr : Reachable g) (h2w : 2 ≤ g.width) (h2h : 2 ≤ g.height)
    (hupd : (update_game g rng).1 = true)
    (hgo : (update_game g rng).2.game_over = false) :
    (segsOf (update_game g rng).2).Nodup := by
  obtain ⟨hL, h3, h100, hdim⟩ := reachable_inv g hr
  have h3n : 3 ≤ g.snake_length := h3
  by_cases hgo1 : g.game_over = true
  · rw [update_game_not_over g rng hgo1] at hupd
    simp at hupd
  · have hgo2 : g.game_over = false := by rwa [Bool.not_eq_true] at hgo1
    by_cases hcol : check_self_collision g (newHead g) = true
    · rw [update_game_collision g rng hgo2 hcol] at hgo
      simp at hgo
    · have hcol2 : check_self_collision g (newHead g) = false := by
        rwa [Bool.not_eq_true] at hcol
      obtain ⟨hhead, hnodup⟩ := hdim h2w h2h
      exact nodup_after_tick g rng hgo2 hcol2 hL (by omega) h100 hhead h2w h2h hnodup

/-- C3 witness: a fresh 10-by-10 game takes one successful tick and its four
distinctness hypotheses hold, giving pairwise distinct segments. -/
theorem c3_witness :
    Reachable gW3 ∧ 2 ≤ gW3.width ∧ 2 ≤ gW3.height ∧
    (update_game gW3 rngW3).1 = true ∧
    (update_game gW3 rngW3).2.game_over = false ∧
    (segsOf (update_game gW3 rngW3).2).Nodup :=
  ⟨Reachable.init blankMemW3 10 10 rngW3 rfl, by decide, by decide, by decide, by decide,
   c3_segments_distinct gW3 rngW3 (Reachable.init blankMemW3 10 10 rngW3 rfl)
     (by decide) (by decide) (by decide) (by decide)⟩

/-- C4 counterexample: the claim says is_game_over returns false on an absent
state, but the C code reads `if (!game) return true;`. -/
theorem c4_counterexample : ¬ (is_game_overPtr none = false) := by decide

/-- C4 (amended: is_game_over returns true on an absent state, all other
operations return their safe default or are no-ops): every operation invoked
with an absent state reference leaves no state behind and returns false, zero,
the sentinel (-1,-1), or (for is_game_over) true. -/
theorem c4_null_safe_defaults :
    (∀ rng, update_gamePtr none rng = (false, none)) ∧
    get_scorePtr none = 0 ∧
    (∀ i, get_snake_segmentPtr none i = ⟨-1, -1⟩) ∧
    is_game_overPtr none = true ∧
    (∀ d, set_directionPtr none d = none) ∧
    (∀ rng, spawn_foodPtr none rng = none) ∧
    (∀ rng, reset_gamePtr none rng = none) ∧
    get_food_positionPtr none = ⟨-1, -1⟩ ∧
    (∀ p, check_self_collisionPtr none p = false) :=
  ⟨fun _ => rfl, rfl, fun _ => rfl, rfl, fun _ => rfl, fun _ => rfl, fun _ => rfl,
   rfl, fun _ => rfl⟩

/-- C5: on a non-game-over state, when the new head reaches the food without a
body collision, the tick adds the (pre-tick) food value to the score and
spawns a new food item (value 10, off the pre-move snake, whenever some cell
avoids the whole backing array); at snake_length = 100 the length stays 100,
below 100 it grows by exactly one. -/
theorem c5_growth_cap (g : GameState) (rng : RandStream)
    (hgo : g.game_over = false)
    (hcol : check_self_collision g (newHead g) = false)
    (hfood : is_food_position g (newHead g) = true)
    (h100 : g.snake_length ≤ MAX_SNAKE_LENGTH) :
    (g.snake_length = MAX_SNAKE_LENGTH →
      (update_game g rng).2.snake_length = MAX_SNAKE_LENGTH) ∧
    (g.snake_length < MAX_SNAKE_LENGTH →
      (update_game g rng).2.snake_length = g.snake_length + 1) ∧
    (update_game g rng).2.score = g.score + g.food.value ∧
    ((∃ p ∈ cells g, ∀ i, i < MAX_SNAKE_LENGTH → g.snake.getD i d0 ≠ p) →
      (update_game g rng).2.food.value = 10 ∧
      ∀ i, i < g.snake_length → (update_game g rng).2.food.position ≠ g.snake.getD i d0) := by
  have hsl := update_game_snake_length g rng hgo hcol
  refine ⟨?_, ?_, ?_, ?_⟩
  · intro hcap
    rw [hsl]
    unfold tickLen
    rw [if_neg (by simp [hcap])]
    exact hcap
  · intro hlt
    rw [hsl]
    unfold tickLen
    rw [if_pos ⟨hfood, hlt⟩]
  · rw [update_game_score g rng hgo hcol, if_pos hfood]
  · rintro ⟨p, hpmem, hpfree⟩
    have hfoodeq := update_game_food_eaten g rng hgo hcol hfood
    have hlen2 : g.snake_length ≤ (grownState g).snake_length := by
      rw [grownState_snake_length]
      split <;> omega
    have hlen3 : (grownState g).snake_length ≤ MAX_SNAKE_LENGTH := by
      rw [grownState_snake_length]
      split <;> omega
    have hcg : cells (grownState g) = cells g := by
      unfold cells
      rw [grownState_width, grownState_height]
    have hfree2 : ∃ q ∈ cells (grownState g), cellFreeOfSnake (grownState g) q = true := by
      refine ⟨p, by rw [hcg]; exact hpmem, ?_⟩
      rw [cellFreeOfSnake_iff]
      intro i hi
      rw [grownState_snake]
      exact hpfree i (by omega)
    obtain ⟨hfreepos, hval⟩ := spawn_food_places (grownState g) rng hfree2
    constructor
    · rw [hfoodeq]
      exact hval
    · intro i hi heq
      rw [hfoodeq] at heq
      have hne := (cellFreeOfSnake_iff (grownState g) _).mp hfreepos i (by omega)
      rw [grownState_snake] at hne
      exact hne heq.symm

/-- C5 witness: a capped snake of 100 segments at (5,5) on a 2-by-1 grid eats
the food under its new head (0,5): the length stays 100 and the food value 7
is credited. -/
theorem c5_witness :
    gW5.game_over = false ∧
    check_self_collision gW5 (newHead gW5) = false ∧
    is_food_position gW5 (newHead gW5) = true ∧
    (update_game gW5 rngW5).2.snake_length = MAX_SNAKE_LENGTH ∧
    (update_game gW5 rngW5).2.score = gW5.score + gW5.food.value :=
  ⟨rfl, by decide, by decide,
   (c5_growth_cap gW5 rngW5 rfl (by decide) (by decide) (by decide)).1 rfl,
   (c5_growth_cap gW5 rngW5 rfl (by decide) (by decide) (by decide)).2.2.1⟩

/-- C6: on positive grids, spawn_food places the food on a cell not occupied
by any live snake segment whenever a free cell exists, with value 10 and on
the grid; it accepts the first free one of the random candidates (about 100
attempts), and when all 100 candidates are occupied it takes the first free
cell in row-major scan order; when every cell is occupied it changes nothing. -/
theorem c6_spawn_food_spec (g : GameState) (rng : RandStream)
    (hw : 1 ≤ g.width) (hh : 1 ≤ g.height) :
    ((∃ p ∈ cells g, cellFreeOfSnake g p = true) →
      (∀ i, i < g.snake_length →
        (spawn_food g rng).food.position ≠ g.snake.getD i d0) ∧
      (spawn_food g rng).food.position ∈ cells g ∧
      (spawn_food g rng).food.value = 10) ∧
    ((∀ p ∈ cells g, cellFreeOfSnake g p = false) → spawn_food g rng = g) ∧
    (∀ k, k < 100 → cellFreeOfSnake g (randPoint g rng k) = true →
      (∀ j, j < k → cellFreeOfSnake g (randPoint g rng j) = false) →
      (spawn_food g rng).food.position = randPoint g rng k) ∧
    ((∀ k, k < 100 → cellFreeOfSnake g (randPoint g rng k) = false) →
      ∀ i, i < (cells g).length →
        cellFreeOfSnake g ((cells g).getD i d0) = true →
        (∀ j, j < i → cellFreeOfSnake g ((cells g).getD j d0) = false) →
        (spawn_food g rng).food.position = (cells g).getD i d0) := by
  refine ⟨?_, ?_, ?_, ?_⟩
  · intro hfree
    obtain ⟨hfp, hval⟩ := spawn_food_places g rng hfree
    refine ⟨?_, spawn_food_mem_cells g rng hw hh hfree, hval⟩
    intro i hi heq
    exact ((cellFreeOfSnake_iff g _).mp hfp i hi) heq.symm
  · exact spawn_food_unchanged g rng hw hh
  · intro k hk hfree hbefore
    exact (spawn_food_first_random g rng k hk hfree hbefore).1
  · intro hnone i hi hfree hbefore
    exact (spawn_food_fallback g rng hnone i hi hfree hbefore).1

/-- C6 witness: on a 2-by-2 grid with a single snake segment at (0,0) and a
stream drawing 1 forever, the very first candidate (1,1) is free and becomes
the food, with value 10. -/
theorem c6_witness :
    (spawn_food gW6 rngW6).food.position = randPoint gW6 rngW6 0 ∧
    (spawn_food gW6 rngW6).food.value = 10 :=
  ⟨(c6_spawn_food_spec gW6 rngW6 (by decide) (by decide)).2.2.1 0 (by decide)
      (by decide) (fun j hj => absurd hj (Nat.not_lt_zero j)),
   ((c6_spawn_food_spec gW6 rngW6 (by decide) (by decide)).1
      ⟨⟨1, 1⟩, by decide, by decide⟩).2.2⟩

/-- C7: for a head inside a positive grid, the new position wraps toroidally:
RIGHT from x = W-1 gives 0, DOWN from y = H-1 gives 0, LEFT from x = 0 gives
W-1, UP from y = 0 gives H-1, and otherwise the moving coordinate changes by
exactly one while the other coordinate is unchanged. -/
theorem c7_toroidal_wrap (x y W H : Int) (hW : 1 ≤ W) (hH : 1 ≤ H)
    (hx0 : 0 ≤ x) (hxW : x < W) (hy0 : 0 ≤ y) (hyH : y < H) :
    get_new_position ⟨x, y⟩ .RIGHT W H = ⟨if x = W - 1 then 0 else x + 1, y⟩ ∧
    get_new_position ⟨x, y⟩ .DOWN W H = ⟨x, if y = H - 1 then 0 else y + 1⟩ ∧
    get_new_position ⟨x, y⟩ .LEFT W H = ⟨if x = 0 then W - 1 else x - 1, y⟩ ∧
    get_new_position ⟨x, y⟩ .UP W H = ⟨x, if y = 0 then H - 1 else y - 1⟩ := by
  refine ⟨?_, ?_, ?_, ?_⟩
  · show (⟨Int.tmod (x + 1) W, y⟩ : Point) = _
    rw [wrap_inc x W hW hx0 hxW]
  · show (⟨x, Int.tmod (y + 1) H⟩ : Point) = _
    rw [wrap_inc y H hH hy0 hyH]
  · show (⟨Int.tmod (x - 1 + W) W, y⟩ : Point) = _
    rw [wrap_dec x W hW hx0 hxW]
  · show (⟨x, Int.tmod (y - 1 + H) H⟩ : Point) = _
    rw [wrap_dec y H hH hy0 hyH]

/-- C7 witness: the wrap equations instantiated at head (1,0) on a 2-by-3 grid. -/
theorem c7_witness :
    get_new_position ⟨1, 0⟩ .RIGHT 2 3 = ⟨if (1 : Int) = 2 - 1 then 0 else 1 + 1, 0⟩ ∧
    get_new_position ⟨1, 0⟩ .DOWN 2 3 = ⟨1, if (0 : Int) = 3 - 1 then 0 else 0 + 1⟩ ∧
    get_new_position ⟨1, 0⟩ .LEFT 2 3 = ⟨if (1 : Int) = 0 then 2 - 1 else 1 - 1, 0⟩ ∧
    get_new_position ⟨1, 0⟩ .UP 2 3 = ⟨1, if (0 : Int) = 0 then 3 - 1 else 0 - 1⟩ :=
  c7_toroidal_wrap 1 0 2 3 (by norm_num) (by norm_num) (by norm_num) (by norm_num)
    (by norm_num) (by norm_num)

/-- C8: set_direction is a no-op exactly when the request is the 180-degree
opposite of the current direction, and otherwise sets the direction
immediately; since the equations hold for every state, they hold identically
whether or not game_over is true. -/
theorem c8_set_direction_opposite (g : GameState) (d : Direction) :
    (d = opposite g.direction → set_direction g d = g) ∧
    (d ≠ opposite g.direction → set_direction g d = { g with direction := d }) := by
  obtain ⟨w, h, s, l, dir, f, sc, go⟩ := g
  cases dir <;> cases d <;> simp [opposite, set_direction]

/-- C8 witness: while heading RIGHT, a LEFT request is ignored and an UP
request takes effect immediately. -/
theorem c8_witness :
    set_direction gW8 .LEFT = gW8 ∧
    set_direction gW8 .UP = { gW8 with direction := .UP } :=
  ⟨(c8_set_direction_opposite gW8 .LEFT).1 rfl,
   (c8_set_direction_opposite gW8 .UP).2 (by decide)⟩

/-- C9: once game_over is true, update_game returns false and leaves the state
untouched, any sequence of update calls leaves it untouched, and only
reset_game (equivalently initialize_game) starts a game with game_over false
again. -/
theorem c9_game_over_freezes (g : GameState) (hgo : g.game_over = true) :
    (∀ rng, update_game g rng = (false, g)) ∧
    (∀ streams : List RandStream, run_updates g streams = g) ∧
    (∀ rng, (reset_game g rng).game_over = false) ∧
    (∀ w h rng, (initialize_game g w h rng).game_over = false) := by
  have h1 : ∀ rng : RandStream, update_game g rng = (false, g) :=
    fun rng => update_game_not_over g rng hgo
  refine ⟨h1, ?_, ?_, ?_⟩
  · intro streams
    induction streams with
    | nil => rfl
    | cons r rs ih =>
      rw [run_updates, h1 r]
      exact ih
  · intro rng
    exact initialize_game_game_over g g.width g.height rng
  · intro w h rng
    exact initialize_game_game_over g w h rng

/-- C9 witness: a finished game ignores two update calls and reset restarts it. -/
theorem c9_witness :
    update_game gW9 rngW9 = (false, gW9) ∧
    run_updates gW9 [rngW9, rngW9] = gW9 ∧
    (reset_game gW9 rngW9).game_over = false ∧
    (initialize_game gW9 3 3 rngW9).game_over = false :=
  ⟨(c9_game_over_freezes gW9 rfl).1 rngW9,
   (c9_game_over_freezes gW9 rfl).2.1 [rngW9, rngW9],
   (c9_game_over_freezes gW9 rfl).2.2.1 rngW9,
   (c9_game_over_freezes gW9 rfl).2.2.2 3 3 rngW9⟩

/-- C10: a growing tick (food eaten, no collision, below the cap) produces the
snake whose head is the new head cell and whose remaining segments are exactly
the pre-move segments shifted one index toward the tail; in particular the new
last segment (index snake_length, the incremented length minus one) sits on
the old tail cell. -/
theorem c10_growth_appends_tail (g : GameState) (rng : RandStream)
    (hL : g.snake.length = MAX_SNAKE_LENGTH)
    (hgo : g.game_over = false)
    (hcol : check_self_collision g (newHead g) = false)
    (hfood : is_food_position g (newHead g) = true)
    (h1 : 1 ≤ g.snake_length)
    (hcap : g.snake_length < MAX_SNAKE_LENGTH) :
    (update_game g rng).2.snake_length = g.snake_length + 1 ∧
    segsOf (update_game g rng).2 = newHead g :: segsOf g ∧
    (segsOf (update_game g rng).2).getD ((update_game g rng).2.snake_length - 1) d0 =
      (segsOf g).getD (g.snake_length - 1) d0 := by
  have htick : tickLen g = g.snake_length + 1 := by
    unfold tickLen
    rw [if_pos ⟨hfood, hcap⟩]
  have hlen2 := update_game_snake_length g rng hgo hcol
  have hsegs := update_game_segs g rng hgo hcol hL h1 (by omega)
  rw [htick, Nat.add_sub_cancel] at hsegs
  refine ⟨?_, hsegs, ?_⟩
  · rw [hlen2, htick]
  · rw [hsegs, hlen2, htick, Nat.add_sub_cancel]
    unfold segsOf
    obtain ⟨n, hn⟩ : ∃ n, g.snake_length = n + 1 := ⟨g.snake_length - 1, by omega⟩
    rw [hn, List.getD_cons_succ, Nat.add_sub_cancel]

/-- C10 witness: the 3-segment snake (2,2),(1,2),(0,2) eats at (3,2); the post
snake is (3,2),(2,2),(1,2),(0,2) with the new tail on the old tail cell (0,2). -/
theorem c10_witness :
    (update_game gW10 rngW10).2.snake_length = gW10.snake_length + 1 ∧
    segsOf (update_game gW10 rngW10).2 = newHead gW10 :: segsOf gW10 ∧
    (segsOf (update_game gW10 rngW10).2).getD
        ((update_game gW10 rngW10).2.snake_length - 1) d0 =
      (segsOf gW10).getD (gW10.snake_length - 1) d0 :=
  c10_growth_appends_tail gW10 rngW10 (by decide) rfl (by decide) (by decide)
    (by decide) (by decide)

end SnakeCore
